import Mathlib

/-!
Verification of the gmail-clone protocol server core.

Shallow embedding of `backend/email_server/smtp_receive_server.py` and
`backend/email_server/imap_server.py`.  Byte streams are modelled as lists of
read events (one per `readline` result: a raw line, EOF, or a timeout of the
DATA-phase per-line `wait_for`).  Bytes are modelled as lists of characters
(the servers only ever treat them as ASCII text).  Wall-clock time is not
modelled: a `ReadEvent.timeout` event stands for the `asyncio.TimeoutError`
raised by the per-line 10s timeout of `_read_email_data`.  The external
collaborators (the Supabase user lookup, `EmailDatabase.create_email`, and
`EmailDatabase.get_emails`) are oracle parameters, matching the collaborator
interface boundary drawn by the spec.  The Python `isalnum` / `isprintable`
predicates are modelled with ASCII semantics.
-/

/-- Byte strings (the servers treat them as 8-bit text). -/
abbrev Bytes := List Char

/-- Python whitespace for `bytes.strip()` / `str.strip()` (ASCII range). -/
def pyWhitespace (c : Char) : Bool :=
  c == ' ' || c == '\t' || c == '\n' || c == '\r' || c == '\x0b' || c == '\x0c'

/-- Python `.strip()` on a character list: drop leading and trailing whitespace. -/
def pyStripList (cs : List Char) : List Char :=
  ((cs.dropWhile pyWhitespace).reverse.dropWhile pyWhitespace).reverse

/-- Python `.strip()` on a string. -/
def pyStrip (s : String) : String :=
  String.mk (pyStripList s.toList)

/-- Python `.upper()` (ASCII). -/
def pyUpper (s : String) : String :=
  String.mk (s.toList.map Char.toUpper)

/-- Python `str.split` with a single-space separator (keeps empty fields). -/
def splitOnSpace : List Char → List (List Char)
  | [] => [[]]
  | c :: rest =>
    if c = ' ' then [] :: splitOnSpace rest
    else
      match splitOnSpace rest with
      | [] => [[c]]
      | g :: gs => (c :: g) :: gs

/-- Python `str.split` with a single-space separator and maxsplit 2: at most
two splits, keeping empty fields. -/
def pySplitSpace2 (cs : List Char) : List (List Char) :=
  let p1 := cs.takeWhile (· != ' ')
  match cs.dropWhile (· != ' ') with
  | [] => [p1]
  | _ :: rest1 =>
    let p2 := rest1.takeWhile (· != ' ')
    match rest1.dropWhile (· != ' ') with
    | [] => [p1, p2]
    | _ :: rest2 => [p1, p2, rest2]

/-- Python `str.isprintable()` restricted to ASCII text (every char in 0x20..0x7e;
empty string counts as printable, as in Python). -/
def pyIsPrintable (cs : List Char) : Bool :=
  cs.all (fun c => 0x20 ≤ c.toNat && c.toNat ≤ 0x7e)

/-- Python `str.isalnum()` restricted to ASCII text (nonempty and all alphanumeric). -/
def pyIsAlnum (cs : List Char) : Bool :=
  !cs.isEmpty && cs.all Char.isAlphanum

/-- One result of a socket `readline`: a raw line (bytes including the newline),
end of stream, or a timeout of the `asyncio.wait_for` wrapper used in the
DATA phase. -/
inductive ReadEvent where
  | line (raw : Bytes)
  | eof
  | timeout
deriving DecidableEq

/-! ## SMTP receive server (`smtp_receive_server.py`) -/

/-- `models.SMTPCommand`. -/
structure SMTPCommand where
  command : String
  arguments : List String
deriving DecidableEq

/-- `models.SMTPResponse`. -/
structure SMTPResponse where
  code : Nat
  message : String
deriving DecidableEq

/-- `models.EmailEnvelope` (the `received_at` timestamp is not modelled). -/
structure EmailEnvelope where
  sender : String
  recipients : List String
  data : Bytes
deriving DecidableEq

/-- The base64-heuristic used at `smtp_receive_server.py:64` and `:169`: the
line is longer than 50 characters and, with every `+`, `/` and `=` removed,
is alphanumeric. -/
def looksLikeBase64 (s : String) : Bool :=
  50 < s.toList.length &&
    pyIsAlnum (s.toList.filter (fun c => c != '+' && c != '/' && c != '='))

/-- The garbled-data check at `smtp_receive_server.py:173`: the line with
every space and tab removed is not printable. -/
def looksGarbled (s : String) : Bool :=
  !pyIsPrintable (s.toList.filter (fun c => c != ' ' && c != '\t'))

/-- `SMTPReceiveServer._parse_command`.  Returns the parsed command even when the
verb is outside the `valid_smtp_commands` set of the server (the source only
logs in that case and still returns the command). -/
def parseSMTPCommand (line : String) : Option SMTPCommand :=
  if looksLikeBase64 line then none
  else if looksGarbled line then none
  else
    let cs := line.toList
    let verb := pyUpper (String.mk (cs.takeWhile (· != ' ')))
    match cs.dropWhile (· != ' ') with
    | [] => some ⟨verb, []⟩
    | _ :: rest => some ⟨verb, (splitOnSpace rest).map String.mk⟩

/-- The non-greedy angle-bracket regex `<(.+?)>`: content-grabbing after a `<`.
The first matched character may be anything but a newline; the group then runs
to the first following `>`, failing on a newline. -/
def angleAfter : List Char → List Char → Option (List Char)
  | _, [] => none
  | acc, c :: rest =>
    if c = '>' then some acc.reverse
    else if c = '\n' then none
    else angleAfter (c :: acc) rest

/-- Attempt to match `(.+?)>` immediately after a `<`. -/
def angleMatch : List Char → Option (List Char)
  | [] => none
  | c0 :: rest => if c0 = '\n' then none else angleAfter [c0] rest

/-- `re.search` with the pattern `<(.+?)>`: scan left to right for the first
`<` at which the non-greedy match succeeds. -/
def angleScan : List Char → Option (List Char)
  | [] => none
  | c :: rest =>
    if c = '<' then
      match angleMatch rest with
      | some g => some g
      | none => angleScan rest
    else angleScan rest

/-- `SMTPReceiveServer._clean_email_address`. -/
def cleanEmailAddress (address : String) : String :=
  if address = "" then ""
  else
    let cs := address.toList
    let cs := if cs.contains ':' then (cs.dropWhile (· != ':')).drop 1 else cs
    match angleScan cs with
    | some g => String.mk (pyStripList g)
    | none => String.mk (pyStripList cs)

/-- `SMTPReceiveServer._handle_mail` (the locally extracted sender is unused for
the response, so the extraction is not repeated here). -/
def handleMail (cmd : SMTPCommand) (env : Option EmailEnvelope) : SMTPResponse :=
  if env.isSome then ⟨503, "Sender already specified"⟩
  else if cmd.arguments = [] then ⟨501, "Sender address required"⟩
  else ⟨250, "Sender OK"⟩

/-- `SMTPReceiveServer._handle_rcpt` (as for MAIL, the locally extracted
recipient does not affect the response). -/
def handleRcpt (cmd : SMTPCommand) (env : Option EmailEnvelope) : SMTPResponse :=
  if env.isNone then ⟨503, "Need MAIL command"⟩
  else if cmd.arguments = [] then ⟨501, "Recipient address required"⟩
  else ⟨250, "Recipient OK"⟩

/-- `SMTPReceiveServer._handle_data`. -/
def handleData (env : Option EmailEnvelope) : SMTPResponse :=
  match env with
  | none => ⟨503, "Need MAIL command"⟩
  | some e =>
    if e.recipients = [] then ⟨503, "Need RCPT command"⟩
    else ⟨354, "End data with <CR><LF>.<CR><LF>"⟩

/-- `SMTPReceiveServer._process_command`. -/
def processSMTPCommand (cmd : SMTPCommand) (env : Option EmailEnvelope) : SMTPResponse :=
  if cmd.command = "HELO" ∨ cmd.command = "EHLO" then
    ⟨250, "localhost Hello " ++ cmd.arguments.headD "unknown"⟩
  else if cmd.command = "MAIL" then handleMail cmd env
  else if cmd.command = "RCPT" then handleRcpt cmd env
  else if cmd.command = "DATA" then handleData env
  else if cmd.command = "RSET" then ⟨250, "Reset OK"⟩
  else if cmd.command = "NOOP" then ⟨250, "OK"⟩
  else if cmd.command = "QUIT" then ⟨221, "Bye"⟩
  else if cmd.command = "VRFY" then ⟨252, "User not verified"⟩
  else if cmd.command = "EXPN" then ⟨252, "List not expanded"⟩
  else if cmd.command = "HELP" then ⟨214, "Help message"⟩
  else ⟨500, "Unknown command"⟩

/-- The envelope update in `handle_connection` (lines 76-89): a successful MAIL
opens a fresh envelope with the raw first argument as sender; a successful RCPT
on an open envelope appends the cleaned recipient when it is nonempty.  No
other command (RSET included) changes the envelope there. -/
def updateEnvelope (cmd : SMTPCommand) (resp : SMTPResponse)
    (env : Option EmailEnvelope) : Option EmailEnvelope :=
  if cmd.command = "MAIL" ∧ resp.code = 250 then
    some ⟨cmd.arguments.headD "", [], []⟩
  else
    match env with
    | some e =>
      if cmd.command = "RCPT" ∧ resp.code = 250 then
        let r := cleanEmailAddress (cmd.arguments.headD "")
        if r ≠ "" then some { e with recipients := e.recipients ++ [r] }
        else some e
      else some e
    | none => none

/-- The dot-unstuffing step of `_read_email_data` (lines 296-298): a line
starting with `..` has the pair collapsed to a single leading `.`. -/
def unstuffLine (l : Bytes) : Bytes :=
  if l.take 2 = ['.', '.'] then '.' :: l.drop 2 else l

/-- The mode of the per-connection loop: reading commands, or inside the
DATA-phase body read of `_read_email_data` (carrying its `line_count` and
accumulated buffer). -/
inductive SMTPMode where
  | command
  | reading (lineCount : Nat) (buf : Bytes)
deriving DecidableEq

/-- `_get_user_id_by_email` followed by the per-recipient loop of
`_process_email` (lines 441-507): each envelope recipient is cleaned and looked
up through the collaborator; unresolved recipients are skipped, and each
resolved one produces one `EmailDatabase.create_email` call for the resolved
user id.  The returned list is the sequence of owner user ids passed to
`create_email`. -/
def processEmailCalls (lookupUser : String → Option String) (e : EmailEnvelope) :
    List String :=
  e.recipients.filterMap (fun r => lookupUser (cleanEmailAddress r))

/-- End of the DATA body read (terminator line, EOF, timeout, or line-count
bound): `handle_connection` lines 101-132.  If an envelope is open its `data`
field is filled with the buffer, the envelope is processed (delivered) and a
250 is sent; with no envelope a 500 is sent.  Either way the loop continues in
command mode with no open envelope.  `r` is the outcome of the rest of the
session. -/
def finishData (env : Option EmailEnvelope) (buf : Bytes)
    (r : List SMTPResponse × List EmailEnvelope) :
    List SMTPResponse × List EmailEnvelope :=
  match env with
  | some e => (⟨250, "Message accepted for delivery"⟩ :: r.1, { e with data := buf } :: r.2)
  | none => (⟨500, "Internal server error - no envelope"⟩ :: r.1, r.2)

/-- `SMTPReceiveServer.handle_connection` (after the 220 greeting), with the
inner `_read_email_data` loop represented as the `reading` mode.  Returns the
wire responses in order and the envelopes handed to `_process_email`
(delivery is modelled as total: the 30s processing timeout and store
exceptions are not modelled).  A `timeout` event in command mode cannot occur
(that `readline` has no timeout) and is treated as the end of the stream. -/
def smtpRun (lookupUser : String → Option String) :
    List ReadEvent → SMTPMode → Option EmailEnvelope →
    List SMTPResponse × List EmailEnvelope
  | [], _, _ => ([], [])
  | ReadEvent.eof :: rest, SMTPMode.reading _ buf, env =>
    finishData env buf (smtpRun lookupUser rest SMTPMode.command none)
  | ReadEvent.timeout :: rest, SMTPMode.reading _ buf, env =>
    finishData env buf (smtpRun lookupUser rest SMTPMode.command none)
  | ReadEvent.line l :: rest, SMTPMode.reading lineCount buf, env =>
    if pyStripList l = ['.'] then
      finishData env buf (smtpRun lookupUser rest SMTPMode.command none)
    else if 50000 < lineCount + 1 then
      finishData env (buf ++ unstuffLine l) (smtpRun lookupUser rest SMTPMode.command none)
    else
      smtpRun lookupUser rest (SMTPMode.reading (lineCount + 1) (buf ++ unstuffLine l)) env
  | ReadEvent.eof :: _, SMTPMode.command, _ => ([], [])
  | ReadEvent.timeout :: _, SMTPMode.command, _ => ([], [])
  | ReadEvent.line raw :: rest, SMTPMode.command, env =>
    let lineStr := String.mk (pyStripList raw)
    if lineStr = "" then smtpRun lookupUser rest SMTPMode.command env
    else
      match parseSMTPCommand lineStr with
      | none =>
        if looksLikeBase64 lineStr then ([], [])
        else
          let r := smtpRun lookupUser rest SMTPMode.command env
          (⟨500, "Invalid command"⟩ :: r.1, r.2)
      | some cmd =>
        let resp := processSMTPCommand cmd env
        let env' := updateEnvelope cmd resp env
        if cmd.command = "QUIT" then ([resp], [])
        else if cmd.command = "DATA" ∧ resp.code = 354 then
          let r := smtpRun lookupUser rest (SMTPMode.reading 0 []) env'
          (resp :: r.1, r.2)
        else
          let r := smtpRun lookupUser rest SMTPMode.command env'
          (resp :: r.1, r.2)

/-- A whole SMTP session from the initial state (no open envelope, command
mode). -/
def smtpSession (lookupUser : String → Option String) (events : List ReadEvent) :
    List SMTPResponse × List EmailEnvelope :=
  smtpRun lookupUser events SMTPMode.command none

/-- The owner user ids passed to `EmailDatabase.create_email` over a whole
session, in order. -/
def smtpSessionCreateCalls (lookupUser : String → Option String)
    (events : List ReadEvent) : List String :=
  ((smtpSession lookupUser events).2).flatMap (processEmailCalls lookupUser)

/-! ## IMAP server (`imap_server.py`) -/

/-- `models.ServerState`. -/
inductive ServerState where
  | notAuthenticated
  | authenticated
  | selected
  | logout
deriving DecidableEq

/-- The per-connection IMAP state carried in `models.ConnectionInfo` (the
`client_id`, capability copy and timestamps are bookkeeping only and are not
modelled). -/
structure IMAPConn where
  state : ServerState
  userId : Option String
  selectedMailbox : Option String
deriving DecidableEq

/-- The initial state of `ConnectionInfo` for a fresh connection. -/
def imapInitConn : IMAPConn :=
  ⟨ServerState.notAuthenticated, none, none⟩

/-- `models.IMAPCommand`. -/
structure IMAPCommandM where
  tag : String
  command : String
  arguments : List String
deriving DecidableEq

/-- A summary of one stored email as returned by the collaborator
`EmailDatabase.get_emails` (`is_read` drives the UNSEEN count in SELECT; the
body length is used by the FETCH stub). -/
structure EmailRec where
  is_read : Bool
  body : String
deriving DecidableEq

/-- The structured `data` payload of `models.IMAPResponse`. -/
inductive RespData where
  | caps (capabilities : List String)
  | mailboxes (names : List String)
  | selectInfo (existsCount unseen recent uidvalidity uidnext : Nat)
  | fetchInfo (messageSet dataItems : String)
  | searchResults (results : List Nat)
deriving DecidableEq

/-- `models.IMAPResponse`. -/
structure IMAPResponse where
  tag : Option String
  response_type : String
  message : String
  data : Option RespData
deriving DecidableEq

/-- The capability list from `IMAPServer.__init__`. -/
def imapCapabilities : List String :=
  ["IMAP4rev1", "STARTTLS", "AUTH=PLAIN", "AUTH=LOGIN", "IDLE", "NAMESPACE",
   "QUOTA", "ID", "ENABLE", "CONDSTORE", "QRESYNC"]

/-- Python `str.strip` with a double-quote argument: remove every leading and
trailing double quote. -/
def pyStripQuotes (s : String) : String :=
  String.mk (((s.toList.dropWhile (· == '"')).reverse.dropWhile (· == '"')).reverse)

/-- The collaborator `EmailDatabase.get_emails(user_id, folder, ...)`.  The
server passes `conn_info.user_id` (possibly `None`) and a folder value; an
`Except.error` models the query raising an exception, whose `str()` is the
error string. -/
abbrev EmailStore := Option String → Option String → Except String (List EmailRec)

/-- `IMAPServer._handle_starttls`. -/
def handleStarttls (conn : IMAPConn) (cmd : IMAPCommandM) : IMAPConn × IMAPResponse :=
  if conn.state ≠ ServerState.notAuthenticated then
    (conn, ⟨some cmd.tag, "BAD", "STARTTLS not allowed in current state", none⟩)
  else
    (conn, ⟨some cmd.tag, "OK", "Begin TLS negotiation now", none⟩)

/-- `IMAPServer._handle_authenticate` (`devMode` is `settings.development_mode`,
which defaults to true). -/
def handleAuthenticate (devMode : Bool) (conn : IMAPConn) (cmd : IMAPCommandM) :
    IMAPConn × IMAPResponse :=
  if conn.state ≠ ServerState.notAuthenticated then
    (conn, ⟨some cmd.tag, "BAD", "Already authenticated", none⟩)
  else if cmd.arguments = [] ∨ pyUpper (cmd.arguments.headD "") ∉ ["PLAIN", "LOGIN"] then
    (conn, ⟨some cmd.tag, "BAD", "Unsupported authentication method", none⟩)
  else if devMode then
    ({ conn with state := ServerState.authenticated, userId := some "dev_user" },
     ⟨some cmd.tag, "OK", "Authentication successful", none⟩)
  else
    (conn, ⟨some cmd.tag, "NO", "Authentication failed", none⟩)

/-- `IMAPServer._handle_login`. -/
def handleLogin (devMode : Bool) (conn : IMAPConn) (cmd : IMAPCommandM) :
    IMAPConn × IMAPResponse :=
  if conn.state ≠ ServerState.notAuthenticated then
    (conn, ⟨some cmd.tag, "BAD", "Already authenticated", none⟩)
  else if cmd.arguments.length < 2 then
    (conn, ⟨some cmd.tag, "BAD", "LOGIN requires username and password", none⟩)
  else if devMode then
    ({ conn with state := ServerState.authenticated, userId := some (cmd.arguments.headD "") },
     ⟨some cmd.tag, "OK", "LOGIN completed", none⟩)
  else
    (conn, ⟨some cmd.tag, "NO", "Login failed", none⟩)

/-- `IMAPServer._handle_select`.  Note the source binds `selected_mailbox` and
sets the state to SELECTED before querying the store, so a failing query
leaves the session in SELECTED with the mailbox bound while answering
tagged NO. -/
def handleSelect (store : EmailStore) (conn : IMAPConn) (cmd : IMAPCommandM) :
    IMAPConn × IMAPResponse :=
  if conn.state ≠ ServerState.authenticated then
    (conn, ⟨some cmd.tag, "BAD", "Not authenticated", none⟩)
  else if cmd.arguments = [] then
    (conn, ⟨some cmd.tag, "BAD", "SELECT requires mailbox name", none⟩)
  else
    let mailboxName := pyStripQuotes (cmd.arguments.headD "")
    let conn := { conn with selectedMailbox := some mailboxName,
                            state := ServerState.selected }
    match store conn.userId (some mailboxName) with
    | Except.ok emails =>
      let existsCount := emails.length
      let unseen := (emails.filter (fun e => !e.is_read)).length
      (conn, ⟨some cmd.tag, "OK", "[READ-WRITE] " ++ mailboxName ++ " selected",
              some (RespData.selectInfo existsCount unseen 0 1 (existsCount + 1))⟩)
    | Except.error e =>
      (conn, ⟨some cmd.tag, "NO", "SELECT failed: " ++ e, none⟩)

/-- `IMAPServer._handle_list`. -/
def handleList (conn : IMAPConn) (cmd : IMAPCommandM) : IMAPConn × IMAPResponse :=
  if conn.state ≠ ServerState.authenticated then
    (conn, ⟨some cmd.tag, "BAD", "Not authenticated", none⟩)
  else
    (conn, ⟨some cmd.tag, "LIST_MULTIPLE", "LIST command",
            some (RespData.mailboxes ["INBOX", "Sent", "Drafts", "Trash", "Spam"])⟩)

/-- `IMAPServer._handle_fetch` (placeholder semantics preserved as in the
source). -/
def handleFetch (store : EmailStore) (conn : IMAPConn) (cmd : IMAPCommandM) :
    IMAPConn × IMAPResponse :=
  if conn.state ≠ ServerState.selected then
    (conn, ⟨some cmd.tag, "BAD", "No mailbox selected", none⟩)
  else if cmd.arguments = [] ∨ cmd.arguments.length < 2 then
    (conn, ⟨some cmd.tag, "BAD", "FETCH requires message set and data items", none⟩)
  else
    let messageSet := cmd.arguments.headD ""
    let dataItems := cmd.arguments.getD 1 ""
    match store conn.userId conn.selectedMailbox with
    | Except.ok emails =>
      let size := match emails with | [] => 0 | e :: _ => e.body.length
      (conn, ⟨none, "untagged",
              messageSet ++ " FETCH (FLAGS (\\Seen) UID " ++ messageSet ++
                " RFC822.SIZE " ++ toString size ++ ")",
              some (RespData.fetchInfo messageSet dataItems)⟩)
    | Except.error e =>
      (conn, ⟨some cmd.tag, "NO", "FETCH failed: " ++ e, none⟩)

/-- `IMAPServer._handle_search` (fixed placeholder). -/
def handleSearch (conn : IMAPConn) (cmd : IMAPCommandM) : IMAPConn × IMAPResponse :=
  if conn.state ≠ ServerState.selected then
    (conn, ⟨some cmd.tag, "BAD", "No mailbox selected", none⟩)
  else
    (conn, ⟨none, "untagged", "SEARCH 1 2 3 4 5",
            some (RespData.searchResults [1, 2, 3, 4, 5])⟩)

/-- `IMAPServer._handle_store` (stub). -/
def handleStoreCmd (conn : IMAPConn) (cmd : IMAPCommandM) : IMAPConn × IMAPResponse :=
  if conn.state ≠ ServerState.selected then
    (conn, ⟨some cmd.tag, "BAD", "No mailbox selected", none⟩)
  else
    (conn, ⟨some cmd.tag, "OK", "STORE completed", none⟩)

/-- `IMAPServer._handle_expunge` (stub). -/
def handleExpunge (conn : IMAPConn) (cmd : IMAPCommandM) : IMAPConn × IMAPResponse :=
  if conn.state ≠ ServerState.selected then
    (conn, ⟨some cmd.tag, "BAD", "No mailbox selected", none⟩)
  else
    (conn, ⟨some cmd.tag, "OK", "EXPUNGE completed", none⟩)

/-- `IMAPServer._process_command`. -/
def imapProcess (devMode : Bool) (store : EmailStore) (conn : IMAPConn)
    (cmd : IMAPCommandM) : IMAPConn × IMAPResponse :=
  if cmd.command = "CAPABILITY" then
    (conn, ⟨none, "CAPABILITY", String.intercalate " " imapCapabilities,
            some (RespData.caps imapCapabilities)⟩)
  else if cmd.command = "NOOP" then
    (conn, ⟨some cmd.tag, "OK", "NOOP completed", none⟩)
  else if cmd.command = "LOGOUT" then
    ({ conn with state := ServerState.logout },
     ⟨some cmd.tag, "OK", "LOGOUT completed", none⟩)
  else if cmd.command = "STARTTLS" then handleStarttls conn cmd
  else if cmd.command = "AUTHENTICATE" then handleAuthenticate devMode conn cmd
  else if cmd.command = "LOGIN" then handleLogin devMode conn cmd
  else if cmd.command = "SELECT" then handleSelect store conn cmd
  else if cmd.command = "LIST" then handleList conn cmd
  else if cmd.command = "FETCH" then handleFetch store conn cmd
  else if cmd.command = "SEARCH" then handleSearch conn cmd
  else if cmd.command = "STORE" then handleStoreCmd conn cmd
  else if cmd.command = "EXPUNGE" then handleExpunge conn cmd
  else (conn, ⟨some cmd.tag, "BAD", "Unknown command", none⟩)

/-- `IMAPServer._parse_command`. -/
def parseIMAPCommand (line : String) : Option IMAPCommandM :=
  match pySplitSpace2 line.toList with
  | [t, c] => some ⟨String.mk t, pyUpper (String.mk c), []⟩
  | [t, c, rest] =>
    some ⟨String.mk t, pyUpper (String.mk c), (splitOnSpace rest).map String.mk⟩
  | _ => none

/-- `IMAPServer._send_response`: the line written to the wire (without CRLF). -/
def renderIMAP (tag : Option String) (rtype msg : String) : String :=
  match tag with
  | some t => t ++ " " ++ rtype ++ " " ++ msg
  | none => "* " ++ rtype ++ " " ++ msg

/-- The mailbox list carried by a LIST_MULTIPLE response
(`response.data.get("mailboxes", [])`). -/
def respMailboxes : Option RespData → List String
  | some (RespData.mailboxes l) => l
  | _ => []

/-- The response dispatch of `IMAPServer.handle_connection` (lines 75-91):
CAPABILITY and untagged responses produce an untagged line plus a tagged OK
completion; LIST_MULTIPLE one untagged LIST line per mailbox plus a tagged OK;
everything else a single tagged line. -/
def dispatchResponses (cmd : IMAPCommandM) (resp : IMAPResponse) : List String :=
  if resp.response_type = "CAPABILITY" then
    [renderIMAP (some "*") "CAPABILITY" resp.message,
     renderIMAP (some cmd.tag) "OK" (cmd.command ++ " completed")]
  else if resp.response_type = "LIST_MULTIPLE" then
    (respMailboxes resp.data).map
        (fun m => renderIMAP (some "*") "LIST" ("(\\HasNoChildren) \"/\" \"" ++ m ++ "\"")) ++
      [renderIMAP (some cmd.tag) "OK" (cmd.command ++ " completed")]
  else if resp.response_type = "untagged" then
    [renderIMAP (some "*") resp.response_type resp.message,
     renderIMAP (some cmd.tag) "OK" (cmd.command ++ " completed")]
  else
    [renderIMAP resp.tag resp.response_type resp.message]

/-- `IMAPServer.handle_connection` after the greeting: the wire lines sent, in
order.  Note the loop never breaks on LOGOUT; it only ends when the client
closes the stream (EOF) or the event list is exhausted. -/
def imapRun (devMode : Bool) (store : EmailStore) :
    List ReadEvent → IMAPConn → List String
  | [], _ => []
  | ReadEvent.eof :: _, _ => []
  | ReadEvent.timeout :: _, _ => []
  | ReadEvent.line raw :: rest, conn =>
    let lineStr := String.mk (pyStripList raw)
    if lineStr = "" then imapRun devMode store rest conn
    else
      match parseIMAPCommand lineStr with
      | none => renderIMAP none "BAD" "Invalid command format" :: imapRun devMode store rest conn
      | some cmd =>
        let pr := imapProcess devMode store conn cmd
        dispatchResponses cmd pr.2 ++ imapRun devMode store rest pr.1

/-- A whole IMAP session from a fresh connection. -/
def imapSession (devMode : Bool) (store : EmailStore) (events : List ReadEvent) :
    List String :=
  renderIMAP none "OK" "IMAP4rev1 Service Ready" :: imapRun devMode store events imapInitConn

/-- Concatenation of a list of byte strings. -/
def concatBytes : List Bytes → Bytes
  | [] => []
  | b :: rest => b ++ concatBytes rest

/-- The verbs with a dedicated branch in `_process_command` (every other verb
falls through to the 500 "Unknown command" response). -/
def smtpHandledVerbs : List String :=
  ["HELO", "EHLO", "MAIL", "RCPT", "DATA", "RSET", "NOOP", "QUIT", "VRFY", "EXPN", "HELP"]

/-! ## Theorems -/

/-- Claim C1 (code_bug evidence): after `MAIL FROM`, `RSET` answers 250 yet the
envelope stays open, so a following `MAIL FROM` is rejected with 503 instead of
the 250 the spec requires of a reset transaction. -/
theorem smtp_rset_leaves_envelope_open :
    (smtpSession (fun _ => none)
      [ReadEvent.line "MAIL FROM:<a@b.c>".toList,
       ReadEvent.line "RSET".toList,
       ReadEvent.line "MAIL FROM:<d@e.f>".toList]).1
      = [⟨250, "Sender OK"⟩, ⟨250, "Reset OK"⟩, ⟨503, "Sender already specified"⟩] := by
  decide

/-- Claim C3 (counterexample): in a session that LOGINs and SELECTs INBOX, a
second SELECT and a LIST from the SELECTED state are rejected with tagged BAD
rather than processed. -/
theorem imap_select_list_rejected_in_selected_counterexample :
    imapRun true (fun _ _ => Except.ok [])
      [ReadEvent.line "a1 LOGIN user pass".toList,
       ReadEvent.line "a2 SELECT INBOX".toList,
       ReadEvent.line "a3 SELECT INBOX".toList,
       ReadEvent.line "a4 LIST".toList] imapInitConn
      = ["a1 OK LOGIN completed",
         "a2 OK [READ-WRITE] INBOX selected",
         "a3 BAD Not authenticated",
         "a4 BAD Not authenticated"] := by
  decide

/-- Claim C3 (amended): SELECT and LIST are accepted only in the AUTHENTICATED
state; in the SELECTED state both are rejected with tagged BAD
"Not authenticated" and the session state is unchanged. -/
theorem imap_select_list_authenticated_only :
    (∀ (store : EmailStore) (conn : IMAPConn) (cmd : IMAPCommandM),
      conn.state = ServerState.selected →
      handleSelect store conn cmd = (conn, ⟨some cmd.tag, "BAD", "Not authenticated", none⟩) ∧
      handleList conn cmd = (conn, ⟨some cmd.tag, "BAD", "Not authenticated", none⟩)) ∧
    (∀ (conn : IMAPConn) (cmd : IMAPCommandM),
      conn.state = ServerState.authenticated →
      (handleList conn cmd).2.response_type = "LIST_MULTIPLE") ∧
    (∀ (store : EmailStore) (conn : IMAPConn) (cmd : IMAPCommandM)
        (a : String) (args : List String) (emails : List EmailRec),
      conn.state = ServerState.authenticated →
      cmd.arguments = a :: args →
      store conn.userId (some (pyStripQuotes a)) = Except.ok emails →
      (handleSelect store conn cmd).2.response_type = "OK") := by
  refine ⟨?_, ?_, ?_⟩
  · intro store conn cmd h
    constructor
    · simp [handleSelect, h]
    · simp [handleList, h]
  · intro conn cmd h
    simp [handleList, h]
  · intro store conn cmd a args emails hstate hargs hstore
    simp [handleSelect, hstate, hargs, hstore]

/-- Claim C4 (counterexample): after LOGOUT the server keeps reading and
processing commands (here a NOOP is still answered), so the connection is not
closed by the server on LOGOUT. -/
theorem imap_logout_connection_stays_open_counterexample :
    imapRun true (fun _ _ => Except.ok [])
      [ReadEvent.line "a1 LOGOUT".toList, ReadEvent.line "a2 NOOP".toList] imapInitConn
      = ["a1 OK LOGOUT completed", "a2 OK NOOP completed"] := by
  decide

/-- Claim C4 (amended): from every state, LOGOUT transitions the session to the
LOGOUT state and answers tagged OK, but the server does not close the
connection: the loop goes on processing the remaining events in the LOGOUT
state. -/
theorem imap_logout_ok_but_loop_continues :
    (∀ (devMode : Bool) (store : EmailStore) (conn : IMAPConn) (tag : String)
        (args : List String),
      imapProcess devMode store conn ⟨tag, "LOGOUT", args⟩
        = ({ conn with state := ServerState.logout },
           ⟨some tag, "OK", "LOGOUT completed", none⟩)) ∧
    (∀ (devMode : Bool) (store : EmailStore) (conn : IMAPConn) (rest : List ReadEvent),
      imapRun devMode store (ReadEvent.line "a1 LOGOUT".toList :: rest) conn
        = "a1 OK LOGOUT completed" ::
            imapRun devMode store rest { conn with state := ServerState.logout }) := by
  constructor
  · intro devMode store conn tag args
    rfl
  · intro devMode store conn rest
    rfl

/-- Claim C9: SELECT before authentication is rejected with BAD; a LOGIN in
development mode authenticates and binds the user, and a subsequent
SELECT INBOX moves the session to SELECTED and reports EXISTS equal to the
number of emails the store returns for that mailbox and UNSEEN equal to the
number of those not marked read. -/
theorem imap_select_inbox_login_exists_unseen :
    (∀ (devMode : Bool) (store : EmailStore) (conn : IMAPConn) (cmd : IMAPCommandM),
      conn.state = ServerState.notAuthenticated →
      cmd.command = "SELECT" →
      (imapProcess devMode store conn cmd).2.response_type = "BAD") ∧
    (∀ (store : EmailStore) (conn : IMAPConn) (u p tag : String),
      conn.state = ServerState.notAuthenticated →
      imapProcess true store conn ⟨tag, "LOGIN", [u, p]⟩
        = ({ conn with state := ServerState.authenticated, userId := some u },
           ⟨some tag, "OK", "LOGIN completed", none⟩)) ∧
    (∀ (store : EmailStore) (conn : IMAPConn) (tag : String) (emails : List EmailRec),
      conn.state = ServerState.authenticated →
      store conn.userId (some "INBOX") = Except.ok emails →
      imapProcess true store conn ⟨tag, "SELECT", ["INBOX"]⟩
        = ({ conn with state := ServerState.selected, selectedMailbox := some "INBOX" },
           ⟨some tag, "OK", "[READ-WRITE] INBOX selected",
            some (RespData.selectInfo emails.length
              ((emails.filter (fun e => !e.is_read)).length) 0 1 (emails.length + 1))⟩)) := by
  refine ⟨?_, ?_, ?_⟩
  · intro devMode store conn cmd hstate hcmd
    obtain ⟨t, c, ar⟩ := cmd
    simp only at hcmd
    subst hcmd
    simp [imapProcess, handleSelect, hstate]
  · intro store conn u p tag hstate
    simp [imapProcess, handleLogin, hstate]
  · intro store conn tag emails hstate hstore
    simp [imapProcess, handleSelect, hstate, pyStripQuotes, hstore]

/-- Claim C10: with an authenticated session and a mailbox argument, SELECT
binds the mailbox and moves to SELECTED before querying the store, so a store
failure still leaves the session in SELECTED with the mailbox bound while the
client gets a tagged NO. -/
theorem imap_select_not_atomic_on_error :
    ∀ (store : EmailStore) (conn : IMAPConn) (tag a : String) (args : List String)
      (err : String),
      conn.state = ServerState.authenticated →
      store conn.userId (some (pyStripQuotes a)) = Except.error err →
      handleSelect store conn ⟨tag, "SELECT", a :: args⟩
        = ({ conn with state := ServerState.selected,
                       selectedMailbox := some (pyStripQuotes a) },
           ⟨some tag, "NO", "SELECT failed: " ++ err, none⟩) := by
  intro store conn tag a args err hstate hstore
  simp [handleSelect, hstate, hstore]

/-- Witness for `imap_select_list_authenticated_only` at concrete sessions. -/
theorem imap_select_list_authenticated_only_witness :
    handleSelect (fun _ _ => Except.ok []) ⟨ServerState.selected, some "u", some "INBOX"⟩
        ⟨"a1", "SELECT", ["INBOX"]⟩
      = (⟨ServerState.selected, some "u", some "INBOX"⟩,
         ⟨some "a1", "BAD", "Not authenticated", none⟩) ∧
    (handleList ⟨ServerState.authenticated, some "u", none⟩
        ⟨"a1", "SELECT", ["INBOX"]⟩).2.response_type = "LIST_MULTIPLE" ∧
    (handleSelect (fun _ _ => Except.ok []) ⟨ServerState.authenticated, some "u", none⟩
        ⟨"a1", "SELECT", ["INBOX"]⟩).2.response_type = "OK" :=
  ⟨(imap_select_list_authenticated_only.1 (fun _ _ => Except.ok [])
      ⟨ServerState.selected, some "u", some "INBOX"⟩ ⟨"a1", "SELECT", ["INBOX"]⟩ rfl).1,
   imap_select_list_authenticated_only.2.1 ⟨ServerState.authenticated, some "u", none⟩
      ⟨"a1", "SELECT", ["INBOX"]⟩ rfl,
   imap_select_list_authenticated_only.2.2 (fun _ _ => Except.ok [])
      ⟨ServerState.authenticated, some "u", none⟩ ⟨"a1", "SELECT", ["INBOX"]⟩
      "INBOX" [] [] rfl rfl rfl⟩

/-- Witness for `imap_select_inbox_login_exists_unseen`: a two-message INBOX,
one unread, yields EXISTS 2 and UNSEEN 1. -/
theorem imap_select_inbox_login_exists_unseen_witness :
    (imapProcess true (fun _ _ => Except.ok [⟨true, "x"⟩, ⟨false, "y"⟩]) imapInitConn
        ⟨"t1", "SELECT", ["INBOX"]⟩).2.response_type = "BAD" ∧
    imapProcess true (fun _ _ => Except.ok [⟨true, "x"⟩, ⟨false, "y"⟩]) imapInitConn
        ⟨"t1", "LOGIN", ["u", "p"]⟩
      = (⟨ServerState.authenticated, some "u", none⟩,
         ⟨some "t1", "OK", "LOGIN completed", none⟩) ∧
    imapProcess true (fun _ _ => Except.ok [⟨true, "x"⟩, ⟨false, "y"⟩])
        ⟨ServerState.authenticated, some "u", none⟩ ⟨"t2", "SELECT", ["INBOX"]⟩
      = (⟨ServerState.selected, some "u", some "INBOX"⟩,
         ⟨some "t2", "OK", "[READ-WRITE] INBOX selected",
          some (RespData.selectInfo 2 1 0 1 3)⟩) :=
  ⟨imap_select_inbox_login_exists_unseen.1 true (fun _ _ => Except.ok [⟨true, "x"⟩, ⟨false, "y"⟩])
      imapInitConn ⟨"t1", "SELECT", ["INBOX"]⟩ rfl rfl,
   imap_select_inbox_login_exists_unseen.2.1 (fun _ _ => Except.ok [⟨true, "x"⟩, ⟨false, "y"⟩])
      imapInitConn "u" "p" "t1" rfl,
   imap_select_inbox_login_exists_unseen.2.2 (fun _ _ => Except.ok [⟨true, "x"⟩, ⟨false, "y"⟩])
      ⟨ServerState.authenticated, some "u", none⟩ "t2" [⟨true, "x"⟩, ⟨false, "y"⟩] rfl rfl⟩

/-- Witness for `imap_select_not_atomic_on_error`: a store that raises leaves
the session SELECTED with the mailbox bound while answering tagged NO. -/
theorem imap_select_not_atomic_on_error_witness :
    handleSelect (fun _ _ => Except.error "boom")
        ⟨ServerState.authenticated, some "u", none⟩ ⟨"t", "SELECT", ["INBOX"]⟩
      = (⟨ServerState.selected, some "u", some "INBOX"⟩,
         ⟨some "t", "NO", "SELECT failed: boom", none⟩) :=
  imap_select_not_atomic_on_error (fun _ _ => Except.error "boom")
    ⟨ServerState.authenticated, some "u", none⟩ "t" "INBOX" [] "boom" rfl rfl

theorem dropWhile_append_ddot (a : List Char) :
    ((a ++ ['.', '.']).dropWhile pyWhitespace).reverse
      = '.' :: '.' :: (a.dropWhile pyWhitespace).reverse := by
  induction a with
  | nil => decide
  | cons c a ih =>
    by_cases hc : pyWhitespace c
    · simpa [List.dropWhile_cons, hc] using ih
    · simp [List.dropWhile_cons, hc, List.reverse_append]

/-- A line starting with `..` never strips to the bare terminator `.`. -/
theorem pyStripList_ddot_ne (l : Bytes) (h : l.take 2 = ['.', '.']) :
    pyStripList l ≠ ['.'] := by
  rcases l with _ | ⟨a, _ | ⟨b, t⟩⟩
  · simp at h
  · simp at h
  · obtain ⟨ha, hb⟩ : a = '.' ∧ b = '.' := by simpa using h
    subst ha; subst hb
    have hdot : pyWhitespace '.' = false := by decide
    have hdw : List.dropWhile pyWhitespace ('.' :: '.' :: t) = '.' :: '.' :: t := by
      simp [List.dropWhile_cons, hdot]
    have hrw : pyStripList ('.' :: '.' :: t)
        = '.' :: '.' :: ((t.reverse.dropWhile pyWhitespace).reverse) := by
      simp only [pyStripList, hdw]
      rw [show ('.' :: '.' :: t).reverse = t.reverse ++ ['.', '.'] by simp]
      exact dropWhile_append_ddot t.reverse
    simp [hrw]

/-- Claim C8: in the DATA-phase read, a body line beginning with `..` is stored
with the pair collapsed to a single leading `.`, and a line stripping to a bare
`.` ends the read with the buffer unchanged (the terminator is not stored). -/
theorem smtp_data_dot_unstuffing_and_terminator :
    (∀ (lookupUser : String → Option String) (l : Bytes) (rest : List ReadEvent)
        (n : Nat) (buf : Bytes) (env : Option EmailEnvelope),
      l.take 2 = ['.', '.'] → n < 50000 →
      smtpRun lookupUser (ReadEvent.line l :: rest) (SMTPMode.reading n buf) env
        = smtpRun lookupUser rest (SMTPMode.reading (n + 1) (buf ++ '.' :: l.drop 2)) env) ∧
    (∀ (lookupUser : String → Option String) (l : Bytes) (rest : List ReadEvent)
        (n : Nat) (buf : Bytes) (env : Option EmailEnvelope),
      pyStripList l = ['.'] →
      smtpRun lookupUser (ReadEvent.line l :: rest) (SMTPMode.reading n buf) env
        = finishData env buf (smtpRun lookupUser rest SMTPMode.command none)) := by
  constructor
  · intro lookupUser l rest n buf env h hn
    have hne := pyStripList_ddot_ne l h
    have hlt : ¬ (50000 < n + 1) := by omega
    simp [smtpRun, if_neg hne, if_neg hlt, unstuffLine, if_pos h]
  · intro lookupUser l rest n buf env h
    simp [smtpRun, if_pos h]

/-- Witness for `smtp_data_dot_unstuffing_and_terminator` on the lines `..x` and
`.`. -/
theorem smtp_data_dot_unstuffing_and_terminator_witness :
    smtpRun (fun _ => none) [ReadEvent.line "..x\r\n".toList] (SMTPMode.reading 0 []) none
      = smtpRun (fun _ => none) [] (SMTPMode.reading 1 ([] ++ '.' :: "..x\r\n".toList.drop 2)) none ∧
    smtpRun (fun _ => none) [ReadEvent.line ".\r\n".toList]
        (SMTPMode.reading 5 "abc".toList) (some ⟨"s", ["r"], []⟩)
      = finishData (some ⟨"s", ["r"], []⟩) "abc".toList
          (smtpRun (fun _ => none) [] SMTPMode.command none) :=
  ⟨smtp_data_dot_unstuffing_and_terminator.1 (fun _ => none) "..x\r\n".toList [] 0 [] none
      (by decide) (by decide),
   smtp_data_dot_unstuffing_and_terminator.2 (fun _ => none) ".\r\n".toList [] 5 "abc".toList
      (some ⟨"s", ["r"], []⟩) (by decide)⟩

/-- Running the DATA-phase read over body lines (none of which is the
terminator) followed by a per-line timeout: the read ends with the partial
buffer, which is then processed exactly like a completed body. -/
theorem smtpRun_reading_timeout (lookupUser : String → Option String) (bs : List Bytes) :
    ∀ (rest : List ReadEvent) (n : Nat) (buf : Bytes) (env : Option EmailEnvelope),
      (∀ l ∈ bs, pyStripList l ≠ ['.']) → n + bs.length ≤ 50000 →
      smtpRun lookupUser (bs.map ReadEvent.line ++ ReadEvent.timeout :: rest)
          (SMTPMode.reading n buf) env
        = finishData env (buf ++ concatBytes (bs.map unstuffLine))
            (smtpRun lookupUser rest SMTPMode.command none) := by
  induction bs with
  | nil =>
    intro rest n buf env _ _
    simp [smtpRun, concatBytes]
  | cons l bs ih =>
    intro rest n buf env hterm hbound
    have hne : pyStripList l ≠ ['.'] := hterm l (by simp)
    have hlt : ¬ (50000 < n + 1) := by
      have := hbound
      simp [List.length_cons] at this
      omega
    have hrec := ih rest (n + 1) (buf ++ unstuffLine l) env
      (fun x hx => hterm x (by simp [hx]))
      (by simp [List.length_cons] at hbound ⊢; omega)
    simp only [List.map_cons, List.cons_append, smtpRun, if_neg hne, if_neg hlt, concatBytes]
    simpa [List.append_assoc, List.append_eq] using hrec

/-- Claim C2 (counterexample): a per-line timeout in the DATA phase does not
produce a 500; the partial buffer is delivered as the message and the client
gets 250, after which a fresh MAIL is accepted. -/
theorem smtp_data_timeout_yields_250_counterexample :
    smtpSession (fun r => if r = "alice@local" then some "uid1" else none)
      [ReadEvent.line "MAIL FROM:<s@x>".toList,
       ReadEvent.line "RCPT TO:<alice@local>".toList,
       ReadEvent.line "DATA".toList,
       ReadEvent.line "partial line\r\n".toList,
       ReadEvent.timeout,
       ReadEvent.line "MAIL FROM:<t@y>".toList]
      = ([⟨250, "Sender OK"⟩, ⟨250, "Recipient OK"⟩,
          ⟨354, "End data with <CR><LF>.<CR><LF>"⟩,
          ⟨250, "Message accepted for delivery"⟩, ⟨250, "Sender OK"⟩],
         [⟨"FROM:<s@x>", ["alice@local"], "partial line\r\n".toList⟩]) := by
  decide

/-- Claim C2 (amended): when a DATA-phase body line read times out, the read
returns the partially buffered data, the envelope is delivered with that
partial body, the client receives 250 (not 500), and the session continues
with no open envelope, able to start a fresh transaction. -/
theorem smtp_data_timeout_partial_buffer_accepted :
    ∀ (lookupUser : String → Option String) (e : EmailEnvelope) (bs : List Bytes)
      (rest : List ReadEvent),
      e.recipients ≠ [] →
      (∀ l ∈ bs, pyStripList l ≠ ['.']) →
      bs.length ≤ 50000 →
      smtpRun lookupUser
          (ReadEvent.line "DATA".toList :: (bs.map ReadEvent.line ++ ReadEvent.timeout :: rest))
          SMTPMode.command (some e)
        = (⟨354, "End data with <CR><LF>.<CR><LF>"⟩ ::
             ⟨250, "Message accepted for delivery"⟩ ::
             (smtpRun lookupUser rest SMTPMode.command none).1,
           { e with data := concatBytes (bs.map unstuffLine) } ::
             (smtpRun lookupUser rest SMTPMode.command none).2) := by
  intro lookupUser e bs rest hrec hterm hbound
  have hstrip : String.mk (pyStripList "DATA".toList) = "DATA" := by decide
  have hparse : parseSMTPCommand "DATA" = some ⟨"DATA", []⟩ := by decide
  have hresp : processSMTPCommand ⟨"DATA", []⟩ (some e)
      = ⟨354, "End data with <CR><LF>.<CR><LF>"⟩ := by
    simp [processSMTPCommand, handleData, hrec]
  have hupd : updateEnvelope ⟨"DATA", []⟩ ⟨354, "End data with <CR><LF>.<CR><LF>"⟩ (some e)
      = some e := by
    simp [updateEnvelope]
  have hread := smtpRun_reading_timeout lookupUser bs rest 0 [] (some e) hterm (by omega)
  simp only [smtpRun, hstrip, hparse, hresp, hupd, hread]
  simp [finishData]

/-- Witness for `smtp_data_timeout_partial_buffer_accepted` on a one-line body. -/
theorem smtp_data_timeout_partial_buffer_accepted_witness :
    smtpRun (fun _ => none)
        (ReadEvent.line "DATA".toList ::
          (["hi\r\n".toList].map ReadEvent.line ++ [ReadEvent.timeout]))
        SMTPMode.command (some ⟨"s@x", ["r@y"], []⟩)
      = (⟨354, "End data with <CR><LF>.<CR><LF>"⟩ ::
           ⟨250, "Message accepted for delivery"⟩ ::
           (smtpRun (fun _ => none) [] SMTPMode.command none).1,
         { (⟨"s@x", ["r@y"], []⟩ : EmailEnvelope) with
             data := concatBytes (["hi\r\n".toList].map unstuffLine) } ::
           (smtpRun (fun _ => none) [] SMTPMode.command none).2) :=
  smtp_data_timeout_partial_buffer_accepted (fun _ => none) ⟨"s@x", ["r@y"], []⟩
    ["hi\r\n".toList] [] (by decide) (by decide) (by decide)

/-- Claim C5 (counterexample): a 60-character alphanumeric line is answered
with nothing at all; the server silently drops the connection (the following
NOOP is never processed). -/
theorem smtp_base64_line_silent_disconnect_counterexample :
    smtpSession (fun _ => none)
      [ReadEvent.line (List.replicate 60 'A'), ReadEvent.line "NOOP".toList]
      = ([], []) := by
  decide

/-- Claim C5 (amended): an (ASCII) input line whose verb has no handler is
answered with a 500 and the connection stays open, except for base64-looking
lines (more than 50 characters, alphanumeric once `+`, `/`, `=` are removed),
which make the server close the connection without any response. -/
theorem smtp_unrecognized_command_500_or_disconnect :
    ∀ (lookupUser : String → Option String) (raw : Bytes) (rest : List ReadEvent)
      (env : Option EmailEnvelope) (s : String),
      s = String.mk (pyStripList raw) →
      (∀ c ∈ raw, c.toNat < 128) →
      s ≠ "" →
      pyUpper (String.mk (s.toList.takeWhile (· != ' '))) ∉ smtpHandledVerbs →
      (if looksLikeBase64 s then
        smtpRun lookupUser (ReadEvent.line raw :: rest) SMTPMode.command env = ([], [])
      else
        smtpRun lookupUser (ReadEvent.line raw :: rest) SMTPMode.command env
          = (⟨500, if looksGarbled s then "Invalid command" else "Unknown command"⟩ ::
               (smtpRun lookupUser rest SMTPMode.command env).1,
             (smtpRun lookupUser rest SMTPMode.command env).2)) := by
  intro lookupUser raw rest env s hs _hascii hne hverb
  by_cases hb : looksLikeBase64 s
  · rw [if_pos hb]
    have hp : parseSMTPCommand s = none := by
      simp [parseSMTPCommand, hb]
    simp only [smtpRun, ← hs, if_neg hne, hp, if_pos hb]
  · rw [if_neg hb]
    by_cases hg : looksGarbled s
    · have hp : parseSMTPCommand s = none := by
        simp [parseSMTPCommand, hb, hg]
      simp only [smtpRun, ← hs, if_neg hne, hp, if_neg hb, if_pos hg]
    · rw [if_neg hg]
      simp only [smtpHandledVerbs, List.mem_cons, List.mem_singleton, not_or,
        String.toList] at hverb
      push_neg at hverb
      obtain ⟨h1, h2, h3, h4, h5, h6, h7, h8, h9, h10, h11, -⟩ := hverb
      have key : ∀ (args : List String),
          parseSMTPCommand s
            = some ⟨pyUpper (String.mk (s.data.takeWhile (· != ' '))), args⟩ →
          smtpRun lookupUser (ReadEvent.line raw :: rest) SMTPMode.command env
            = (⟨500, "Unknown command"⟩ ::
                 (smtpRun lookupUser rest SMTPMode.command env).1,
               (smtpRun lookupUser rest SMTPMode.command env).2) := by
        intro args hp
        have hresp : processSMTPCommand
            ⟨pyUpper (String.mk (s.data.takeWhile (· != ' '))), args⟩ env
            = ⟨500, "Unknown command"⟩ := by
          simp [processSMTPCommand, h1, h2, h3, h4, h5, h6, h7, h8, h9, h10, h11]
        have hupd : updateEnvelope
            ⟨pyUpper (String.mk (s.data.takeWhile (· != ' '))), args⟩
            ⟨500, "Unknown command"⟩ env = env := by
          cases env <;> simp [updateEnvelope, h3, h4]
        simp only [smtpRun, ← hs, if_neg hne, hp, hresp, hupd, if_neg h8]
        simp [h5, h8]
      rcases hdrop : s.data.dropWhile (· != ' ') with _ | ⟨c, restc⟩
      · exact key [] (by simp [parseSMTPCommand, String.toList, hb, hg, hdrop])
      · exact key ((splitOnSpace restc).map String.mk)
          (by simp [parseSMTPCommand, String.toList, hb, hg, hdrop])

/-- Witness for `smtp_unrecognized_command_500_or_disconnect`: a base64-looking
line (silent disconnect) and an ordinary unknown verb (500, connection open). -/
theorem smtp_unrecognized_command_500_or_disconnect_witness :
    (if looksLikeBase64 (String.mk (List.replicate 60 'B')) then
      smtpRun (fun _ => none) (ReadEvent.line (List.replicate 60 'B') :: [])
          SMTPMode.command none = ([], [])
    else
      smtpRun (fun _ => none) (ReadEvent.line (List.replicate 60 'B') :: [])
          SMTPMode.command none
        = (⟨500, if looksGarbled (String.mk (List.replicate 60 'B')) then "Invalid command"
                 else "Unknown command"⟩ ::
             (smtpRun (fun _ => none) [] SMTPMode.command none).1,
           (smtpRun (fun _ => none) [] SMTPMode.command none).2)) ∧
    (if looksLikeBase64 "FOO bar" then
      smtpRun (fun _ => none) (ReadEvent.line "FOO bar".toList :: []) SMTPMode.command none
        = ([], [])
    else
      smtpRun (fun _ => none) (ReadEvent.line "FOO bar".toList :: []) SMTPMode.command none
        = (⟨500, if looksGarbled "FOO bar" then "Invalid command" else "Unknown command"⟩ ::
             (smtpRun (fun _ => none) [] SMTPMode.command none).1,
           (smtpRun (fun _ => none) [] SMTPMode.command none).2)) :=
  ⟨smtp_unrecognized_command_500_or_disconnect (fun _ => none) (List.replicate 60 'B') []
      none (String.mk (List.replicate 60 'B')) (by decide) (by decide) (by decide) (by decide),
   smtp_unrecognized_command_500_or_disconnect (fun _ => none) "FOO bar".toList []
      none "FOO bar" (by decide) (by decide) (by decide) (by decide)⟩

/-- Claim C6: with two envelope recipients of which exactly one resolves via
the user-lookup collaborator, `create_email` is called exactly once, for the
user id of the resolved recipient (either order); and in a full session with a
pair of RCPTs the client still receives 250 for the message and the single
delivery happens. -/
theorem smtp_partial_recipient_resolution_single_create :
    (∀ (lookupUser : String → Option String) (s : String) (d : Bytes) (r1 r2 u : String),
      lookupUser (cleanEmailAddress r1) = some u →
      lookupUser (cleanEmailAddress r2) = none →
      processEmailCalls lookupUser ⟨s, [r1, r2], d⟩ = [u]) ∧
    (∀ (lookupUser : String → Option String) (s : String) (d : Bytes) (r1 r2 u : String),
      lookupUser (cleanEmailAddress r1) = none →
      lookupUser (cleanEmailAddress r2) = some u →
      processEmailCalls lookupUser ⟨s, [r1, r2], d⟩ = [u]) ∧
    (smtpSession (fun r => if r = "alice@local" then some "uid-alice" else none)
        [ReadEvent.line "HELO client".toList,
         ReadEvent.line "MAIL FROM:<sender@x>".toList,
         ReadEvent.line "RCPT TO:<alice@local>".toList,
         ReadEvent.line "RCPT TO:<bob@remote>".toList,
         ReadEvent.line "DATA".toList,
         ReadEvent.line "Subject: hi\r\n".toList,
         ReadEvent.line ".\r\n".toList,
         ReadEvent.line "QUIT".toList]
      = ([⟨250, "localhost Hello client"⟩, ⟨250, "Sender OK"⟩, ⟨250, "Recipient OK"⟩,
          ⟨250, "Recipient OK"⟩, ⟨354, "End data with <CR><LF>.<CR><LF>"⟩,
          ⟨250, "Message accepted for delivery"⟩, ⟨221, "Bye"⟩],
         [⟨"FROM:<sender@x>", ["alice@local", "bob@remote"], "Subject: hi\r\n".toList⟩]) ∧
     smtpSessionCreateCalls (fun r => if r = "alice@local" then some "uid-alice" else none)
        [ReadEvent.line "HELO client".toList,
         ReadEvent.line "MAIL FROM:<sender@x>".toList,
         ReadEvent.line "RCPT TO:<alice@local>".toList,
         ReadEvent.line "RCPT TO:<bob@remote>".toList,
         ReadEvent.line "DATA".toList,
         ReadEvent.line "Subject: hi\r\n".toList,
         ReadEvent.line ".\r\n".toList,
         ReadEvent.line "QUIT".toList]
      = ["uid-alice"]) := by
  refine ⟨?_, ?_, by decide, by decide⟩
  · intro lookupUser s d r1 r2 u h1 h2
    simp [processEmailCalls, h1, h2]
  · intro lookupUser s d r1 r2 u h1 h2
    simp [processEmailCalls, h1, h2]

/-- Witness for `smtp_partial_recipient_resolution_single_create` with concrete
recipients in both orders. -/
theorem smtp_partial_recipient_resolution_single_create_witness :
    processEmailCalls (fun r => if r = "a@b" then some "u1" else none)
        ⟨"s@x", ["a@b", "c@d"], []⟩ = ["u1"] ∧
    processEmailCalls (fun r => if r = "a@b" then some "u1" else none)
        ⟨"s@x", ["c@d", "a@b"], []⟩ = ["u1"] :=
  ⟨smtp_partial_recipient_resolution_single_create.1
      (fun r => if r = "a@b" then some "u1" else none) "s@x" [] "a@b" "c@d" "u1"
      (by decide) (by decide),
   smtp_partial_recipient_resolution_single_create.2.1
      (fun r => if r = "a@b" then some "u1" else none) "s@x" [] "c@d" "a@b" "u1"
      (by decide) (by decide)⟩

/-- Delivered envelopes coming out of a finished DATA read keep their
recipients, so they are nonempty whenever the recipients of the open
envelope were. -/
theorem finishData_delivered (lookupUser : String → Option String) (rest : List ReadEvent)
    (env : Option EmailEnvelope) (b : Bytes)
    (hrec : ∀ e ∈ (smtpRun lookupUser rest SMTPMode.command none).2, e.recipients ≠ [])
    (henv : ∀ e0, env = some e0 → e0.recipients ≠ []) :
    ∀ e ∈ (finishData env b (smtpRun lookupUser rest SMTPMode.command none)).2,
      e.recipients ≠ [] := by
  intro e he
  cases env with
  | none =>
    simp only [finishData] at he
    exact hrec e he
  | some e0 =>
    simp only [finishData] at he
    rw [List.mem_cons] at he
    rcases he with rfl | he
    · simpa using henv e0 rfl
    · exact hrec e he

/-- Every envelope handed to `_process_email` has at least one recipient,
provided the invariant holds of the envelope open at the start (vacuous in
command mode). -/
theorem smtpRun_delivered_nonempty (lookupUser : String → Option String) :
    ∀ (events : List ReadEvent) (mode : SMTPMode) (env : Option EmailEnvelope),
      (∀ n b, mode = SMTPMode.reading n b → ∀ e0, env = some e0 → e0.recipients ≠ []) →
      ∀ e ∈ (smtpRun lookupUser events mode env).2, e.recipients ≠ [] := by
  intro events
  induction events with
  | nil =>
    intro mode env _ e he
    simp [smtpRun] at he
  | cons ev rest ih =>
    intro mode env hinv
    cases ev with
    | eof =>
      cases mode with
      | command => intro e he; simp [smtpRun] at he
      | reading n b =>
        simp only [smtpRun]
        exact finishData_delivered lookupUser rest env b
          (ih SMTPMode.command none (by simp)) (fun e0 h0 => hinv n b rfl e0 h0)
    | timeout =>
      cases mode with
      | command => intro e he; simp [smtpRun] at he
      | reading n b =>
        simp only [smtpRun]
        exact finishData_delivered lookupUser rest env b
          (ih SMTPMode.command none (by simp)) (fun e0 h0 => hinv n b rfl e0 h0)
    | line raw =>
      cases mode with
      | reading n b =>
        simp only [smtpRun]
        split
        · exact finishData_delivered lookupUser rest env b
            (ih SMTPMode.command none (by simp)) (fun e0 h0 => hinv n b rfl e0 h0)
        · split
          · exact finishData_delivered lookupUser rest env (b ++ unstuffLine raw)
              (ih SMTPMode.command none (by simp)) (fun e0 h0 => hinv n b rfl e0 h0)
          · exact ih (SMTPMode.reading (n + 1) (b ++ unstuffLine raw)) env
              (fun n' b' _ e0 h0 => hinv n b rfl e0 h0)
      | command =>
        simp only [smtpRun]
        split
        · exact ih SMTPMode.command env (by simp)
        · split
          · split
            · intro e he; simp at he
            · intro e he
              simp only at he
              exact ih SMTPMode.command env (by simp) e he
          · next cmd hp =>
            split
            · intro e he; simp at he
            · split
              · next h354 =>
                obtain ⟨hcmd, hcode⟩ := h354
                have hde : processSMTPCommand cmd env = handleData env := by
                  simp [processSMTPCommand, hcmd]
                have hex : ∃ e1, env = some e1 ∧ e1.recipients ≠ [] := by
                  rw [hde] at hcode
                  cases env with
                  | none => simp [handleData] at hcode
                  | some e1 =>
                    by_cases hr : e1.recipients = []
                    · simp [handleData, hr] at hcode
                    · exact ⟨e1, rfl, hr⟩
                obtain ⟨e1, henv, hrec1⟩ := hex
                have hupd : updateEnvelope cmd (processSMTPCommand cmd env) env = some e1 := by
                  subst henv
                  simp [updateEnvelope, hcmd]
                intro e he
                simp only [hupd] at he
                exact ih (SMTPMode.reading 0 []) (some e1)
                  (fun n' b' _ e0 h0 => (Option.some.inj h0) ▸ hrec1) e he
              · intro e he
                simp only at he
                exact ih SMTPMode.command
                  (updateEnvelope cmd (processSMTPCommand cmd env) env) (by simp) e he

/-- Claim C7: RCPT with no open envelope and DATA with no recipients are both
refused with 503, and consequently every envelope that reaches the delivery
pipeline has at least one recipient. -/
theorem smtp_rcpt_data_guards_delivery_invariant :
    (∀ (cmd : SMTPCommand), cmd.command = "RCPT" →
      processSMTPCommand cmd none = ⟨503, "Need MAIL command"⟩) ∧
    (∀ (cmd : SMTPCommand) (e : EmailEnvelope), cmd.command = "DATA" →
      e.recipients = [] →
      processSMTPCommand cmd (some e) = ⟨503, "Need RCPT command"⟩) ∧
    (∀ (lookupUser : String → Option String) (events : List ReadEvent),
      ∀ e ∈ (smtpSession lookupUser events).2, e.recipients ≠ []) := by
  refine ⟨?_, ?_, ?_⟩
  · intro cmd hcmd
    simp [processSMTPCommand, hcmd, handleRcpt]
  · intro cmd e hcmd hrec
    simp [processSMTPCommand, hcmd, handleData, hrec]
  · intro lookupUser events
    exact smtpRun_delivered_nonempty lookupUser events SMTPMode.command none (by simp)

/-- Witness for `smtp_rcpt_data_guards_delivery_invariant` on a concrete
session that delivers one envelope. -/
theorem smtp_rcpt_data_guards_delivery_invariant_witness :
    processSMTPCommand ⟨"RCPT", ["TO:<a@b>"]⟩ none = ⟨503, "Need MAIL command"⟩ ∧
    processSMTPCommand ⟨"DATA", []⟩ (some ⟨"s", [], []⟩) = ⟨503, "Need RCPT command"⟩ ∧
    (⟨"FROM:<s@x>", ["alice@local"], "hi\r\n".toList⟩ : EmailEnvelope).recipients ≠ [] := by
  refine ⟨smtp_rcpt_data_guards_delivery_invariant.1 ⟨"RCPT", ["TO:<a@b>"]⟩ rfl,
    smtp_rcpt_data_guards_delivery_invariant.2.1 ⟨"DATA", []⟩ ⟨"s", [], []⟩ rfl rfl, ?_⟩
  exact smtp_rcpt_data_guards_delivery_invariant.2.2
    (fun r => if r = "alice@local" then some "uid1" else none)
    [ReadEvent.line "MAIL FROM:<s@x>".toList,
     ReadEvent.line "RCPT TO:<alice@local>".toList,
     ReadEvent.line "DATA".toList,
     ReadEvent.line "hi\r\n".toList,
     ReadEvent.line ".\r\n".toList,
     ReadEvent.line "QUIT".toList]
    ⟨"FROM:<s@x>", ["alice@local"], "hi\r\n".toList⟩ (by decide)
